import Mathlib

/-!
Verification of the ephemera download-request core: a shallow embedding of
the request checker (`RequestCheckerService`), the requests manager
(`RequestsManager`), the Apprise notification service (`AppriseService.send`)
and the SSE requests stream route, together with proofs of the specified
properties.  External effects (the scraper search, the queue manager, the
HTTP call to the Apprise server) are modelled by an environment that fixes
the outcome of each external call; the sequential bodies of the methods are
translated statement by statement, with an explicit trace of the effectful
calls they make.
-/

namespace Ephemera

/-- Status of a saved download request (`active`, `fulfilled`, `cancelled`). -/
inductive ReqStatus
  | active
  | fulfilled
  | cancelled
deriving DecidableEq

/-- A search result as consumed by the checker (`md5`, `title`, `authors`). -/
structure Book where
  md5 : String
  title : String
  authors : String
deriving DecidableEq

/-- A TS `string | string[]` union value, as appears in request query params. -/
inductive StrOrList
  | str (s : String)
  | list (l : List String)
deriving DecidableEq

/-- `toArray` helper of `convertToSearchQuery`: ensure array format;
`undefined` stays `undefined`, a plain string becomes a one-element array. -/
def toArray : Option StrOrList → Option (List String)
  | none => none
  | some (StrOrList.str s) => some [s]
  | some (StrOrList.list l) => some l

/-- Saved query parameters of a request (`RequestQueryParams`). -/
structure RequestQueryParams where
  q : Option String
  sort : Option String
  content : Option StrOrList
  ext : Option StrOrList
  lang : Option StrOrList
  desc : Option String
deriving DecidableEq

/-- The search query sent to the scraper (`SearchQuery`). -/
structure SearchQuery where
  q : String
  page : Nat
  sort : Option String
  content : Option (List String)
  ext : Option (List String)
  lang : Option (List String)
  desc : Option String
deriving DecidableEq

/-- `convertToSearchQuery`: convert `RequestQueryParams` to a `SearchQuery`;
always checks the first page, `q` defaults to the empty string. -/
def convertToSearchQuery (params : RequestQueryParams) : SearchQuery :=
  { q := params.q.getD ""
    page := 1
    sort := params.sort
    content := toArray params.content
    ext := toArray params.ext
    lang := toArray params.lang
    desc := params.desc }

/-- A saved download request row (`SavedRequest`). -/
structure SavedRequest where
  id : Nat
  queryParams : RequestQueryParams
  status : ReqStatus
  lastCheckedAt : Option Nat
  fulfilledBookMd5 : Option String
deriving DecidableEq

namespace DownloadRequestsService

/-- Modelled from the spec: the Request Store leaf (`download-requests.js` is
not part of the analysed sources).  `getAllRequests` lists every saved
request. -/
def getAllRequests (st : List SavedRequest) : List SavedRequest := st

/-- Modelled from the spec: list the requests whose `status` is `active`. -/
def getActiveRequests (st : List SavedRequest) : List SavedRequest :=
  st.filter (fun r => r.status = ReqStatus.active)

/-- Modelled from the spec: look a request up by its integer id. -/
def getRequestById (st : List SavedRequest) (id : Nat) : Option SavedRequest :=
  st.find? (fun r => r.id = id)

/-- Modelled from the spec: set `lastCheckedAt` of the request with the given
id to the current time. -/
def updateLastChecked (st : List SavedRequest) (id : Nat) (now : Nat) :
    List SavedRequest :=
  st.map (fun r =>
    if r.id = id then { r with lastCheckedAt := some now } else r)

/-- Modelled from the spec: mark the request with the given id `fulfilled`
and record the fulfilling book's fingerprint. -/
def markFulfilled (st : List SavedRequest) (id : Nat) (md5 : String) :
    List SavedRequest :=
  st.map (fun r =>
    if r.id = id then
      { r with status := ReqStatus.fulfilled, fulfilledBookMd5 := some md5 }
    else r)

/-- Modelled from the spec: delete the request with the given id. -/
def deleteRequest (st : List SavedRequest) (id : Nat) : List SavedRequest :=
  st.filter (fun r => r.id ≠ id)

/-- Modelled from the spec: set the request's status to `cancelled`. -/
def cancelRequest (st : List SavedRequest) (id : Nat) : List SavedRequest :=
  st.map (fun r =>
    if r.id = id then { r with status := ReqStatus.cancelled } else r)

/-- Modelled from the spec: set a cancelled request's status back to
`active`. -/
def reactivateRequest (st : List SavedRequest) (id : Nat) : List SavedRequest :=
  st.map (fun r =>
    if r.id = id then { r with status := ReqStatus.active } else r)

/-- Modelled from the spec: create a new `active` request from query
parameters. -/
def createRequest (st : List SavedRequest) (params : RequestQueryParams)
    (newId : Nat) : List SavedRequest :=
  st ++ [{ id := newId
           queryParams := params
           status := ReqStatus.active
           lastCheckedAt := none
           fulfilledBookMd5 := none }]

/-- The status currently stored for the request with a given id. -/
def statusOf (st : List SavedRequest) (i : Nat) : Option ReqStatus :=
  (getRequestById st i).map SavedRequest.status

end DownloadRequestsService

/-- Aggregate request statistics (`RequestStats`). -/
structure RequestStats where
  total : Nat
  active : Nat
  fulfilled : Nat
  cancelled : Nat
deriving DecidableEq

/-- Modelled from the spec: aggregate counts per status over all saved
requests. -/
def DownloadRequestsService.getStats (st : List SavedRequest) : RequestStats :=
  { total := st.length
    active := (st.filter (fun r => r.status = ReqStatus.active)).length
    fulfilled := (st.filter (fun r => r.status = ReqStatus.fulfilled)).length
    cancelled := (st.filter (fun r => r.status = ReqStatus.cancelled)).length }

/-- Payload of a `requests-updated` broadcast (`RequestsUpdate`). -/
structure RequestsUpdate where
  requests : List SavedRequest
  stats : RequestStats
deriving DecidableEq

namespace RequestsManager

/-- `emitRequestsUpdate`: fetch the current requests and stats and emit one
`requests-updated` event carrying them. -/
def emitRequestsUpdate (st : List SavedRequest) : List RequestsUpdate :=
  [{ requests := DownloadRequestsService.getAllRequests st
     stats := DownloadRequestsService.getStats st }]

/-- `getFullUpdate`: the full snapshot handed to a newly connected SSE
client. -/
def getFullUpdate (st : List SavedRequest) : RequestsUpdate :=
  { requests := DownloadRequestsService.getAllRequests st
    stats := DownloadRequestsService.getStats st }

/-- `createRequest`: create the request, then emit one update. -/
def createRequest (st : List SavedRequest) (params : RequestQueryParams)
    (newId : Nat) : List SavedRequest × List RequestsUpdate :=
  let st1 := DownloadRequestsService.createRequest st params newId
  (st1, emitRequestsUpdate st1)

/-- `deleteRequest`: delete the request, then emit one update. -/
def deleteRequest (st : List SavedRequest) (id : Nat) :
    List SavedRequest × List RequestsUpdate :=
  let st1 := DownloadRequestsService.deleteRequest st id
  (st1, emitRequestsUpdate st1)

/-- `cancelRequest`: cancel the request, then emit one update. -/
def cancelRequest (st : List SavedRequest) (id : Nat) :
    List SavedRequest × List RequestsUpdate :=
  let st1 := DownloadRequestsService.cancelRequest st id
  (st1, emitRequestsUpdate st1)

/-- `reactivateRequest`: reactivate the request, then emit one update. -/
def reactivateRequest (st : List SavedRequest) (id : Nat) :
    List SavedRequest × List RequestsUpdate :=
  let st1 := DownloadRequestsService.reactivateRequest st id
  (st1, emitRequestsUpdate st1)

/-- `markFulfilled`: mark the request fulfilled, then emit one update. -/
def markFulfilled (st : List SavedRequest) (id : Nat) (md5 : String) :
    List SavedRequest × List RequestsUpdate :=
  let st1 := DownloadRequestsService.markFulfilled st id md5
  (st1, emitRequestsUpdate st1)

/-- `updateLastChecked`: update the timestamp; deliberately emits no update
(`lastCheckedAt` changes are not user-visible). -/
def updateLastChecked (st : List SavedRequest) (id : Nat) (now : Nat) :
    List SavedRequest × List RequestsUpdate :=
  (DownloadRequestsService.updateLastChecked st id now, [])

end RequestsManager

/-- Outcome of an `aaScraper.search` call: a result list, or a thrown error. -/
inductive SearchOutcome
  | ok (results : List Book)
  | err (msg : String)
deriving DecidableEq

/-- Outcome of a `queueManager.addToQueue` call: a queue status string
(`queued`, `already_in_queue`, ...), or a thrown error. -/
inductive QueueOutcome
  | ok (status : String)
  | err (msg : String)
deriving DecidableEq

/-- Environment fixing the outcome of every external call a check cycle can
make: whether `getActiveRequests` throws, the search outcome per query, and
the queue-admission outcome per fingerprint. -/
structure CheckerEnv where
  listFails : Bool
  search : SearchQuery → SearchOutcome
  queue : String → QueueOutcome

/-- An effectful call made by the checker, recorded in order of execution. -/
inductive Event
  | updateLastChecked (id : Nat)
  | search (id : Nat)
  | addToQueue (md5 : String)
  | markFulfilled (id : Nat) (md5 : String)
  | notify (kind : String)
  | delay (ms : Nat)
deriving DecidableEq

namespace RequestCheckerService

/-- The checker's state: the `isRunning` single-flight flag plus the request
store it mutates through the Request Store. -/
structure CheckerState where
  isRunning : Bool
  store : List SavedRequest
deriving DecidableEq

/-- Result of one loop iteration of `checkAllRequests` (lines 72-136 of the
source): the store after the iteration, the calls made, and the increments
to `foundCount` and `errorCount`. -/
structure StepResult where
  store : List SavedRequest
  events : List Event
  foundInc : Nat
  errorInc : Nat
deriving DecidableEq

/-- One iteration of the `for (const request of activeRequests)` loop:
update `lastCheckedAt`, run the search; on a thrown search error the outer
catch counts it (and the trailing delay inside the `try` is skipped); on
zero results fall through to the delay; on a hit, `addToQueue` the first
result then `markFulfilled` and notify, the inner catch counting a queue
failure without marking fulfilled. -/
def processOne (env : CheckerEnv) (now : Nat) (st : List SavedRequest)
    (request : SavedRequest) : StepResult :=
  let st1 := DownloadRequestsService.updateLastChecked st request.id now
  let searchQuery := convertToSearchQuery request.queryParams
  match env.search searchQuery with
  | SearchOutcome.err _ =>
      { store := st1
        events := [Event.updateLastChecked request.id, Event.search request.id]
        foundInc := 0
        errorInc := 1 }
  | SearchOutcome.ok [] =>
      { store := st1
        events := [Event.updateLastChecked request.id, Event.search request.id,
                   Event.delay 2000]
        foundInc := 0
        errorInc := 0 }
  | SearchOutcome.ok (firstBook :: _) =>
      match env.queue firstBook.md5 with
      | QueueOutcome.err _ =>
          { store := st1
            events := [Event.updateLastChecked request.id,
                       Event.search request.id,
                       Event.addToQueue firstBook.md5,
                       Event.delay 2000]
            foundInc := 0
            errorInc := 1 }
      | QueueOutcome.ok _ =>
          { store := DownloadRequestsService.markFulfilled st1 request.id
                       firstBook.md5
            events := [Event.updateLastChecked request.id,
                       Event.search request.id,
                       Event.addToQueue firstBook.md5,
                       Event.markFulfilled request.id firstBook.md5,
                       Event.notify "request_fulfilled",
                       Event.delay 2000]
            foundInc := 1
            errorInc := 0 }

/-- Accumulated result of the request loop. -/
structure LoopResult where
  store : List SavedRequest
  events : List Event
  found : Nat
  errors : Nat
deriving DecidableEq

/-- The checker's loop over the snapshot of active requests, threading the
store and concatenating traces and counters. -/
def runLoop (env : CheckerEnv) (now : Nat) (st : List SavedRequest) :
    List SavedRequest → LoopResult
  | [] => { store := st, events := [], found := 0, errors := 0 }
  | r :: rest =>
      let p := processOne env now st r
      let q := runLoop env now p.store rest
      { store := q.store
        events := p.events ++ q.events
        found := p.foundInc + q.found
        errors := p.errorInc + q.errors }

/-- Outcome of one `checkAllRequests` invocation: final state, trace, whether
the guarded cycle body ran, and the cycle's counters. -/
structure CheckOutcome where
  state : CheckerState
  events : List Event
  ran : Bool
  found : Nat
  errors : Nat
deriving DecidableEq

/-- The `try { ... } catch { ... } finally { isRunning = false }` body of
`checkAllRequests`, entered once the guard has been passed and the flag set:
list the active requests (a fatal listing error is caught and logged), bail
out early when none are active, otherwise run the loop; the `finally`
clears `isRunning` on every path. -/
def runCycle (env : CheckerEnv) (now : Nat) (s : CheckerState) : CheckOutcome :=
  if env.listFails then
    { state := { isRunning := false, store := s.store }
      events := [], ran := true, found := 0, errors := 0 }
  else
    let activeRequests := DownloadRequestsService.getActiveRequests s.store
    if activeRequests.isEmpty then
      { state := { isRunning := false, store := s.store }
        events := [], ran := true, found := 0, errors := 0 }
    else
      let q := runLoop env now s.store activeRequests
      { state := { isRunning := false, store := q.store }
        events := q.events, ran := true, found := q.found, errors := q.errors }

/-- `checkAllRequests`: if a previous invocation is still running, skip
entirely (no request is read or mutated, nothing is queued to run later);
otherwise set `isRunning` and run the cycle body. -/
def checkAllRequests (env : CheckerEnv) (now : Nat) (s : CheckerState) :
    CheckOutcome :=
  if s.isRunning then
    { state := s, events := [], ran := false, found := 0, errors := 0 }
  else
    runCycle env now { isRunning := true, store := s.store }

/-- Return value of `checkSingleRequest`. -/
structure SingleCheckResult where
  found : Bool
  bookMd5 : Option String
  error : Option String
deriving DecidableEq

/-- Outcome of a `checkSingleRequest` invocation. -/
structure SingleOutcome where
  store : List SavedRequest
  events : List Event
  result : SingleCheckResult
deriving DecidableEq

/-- `checkSingleRequest`: look the request up (absent or non-active requests
return early with an error string and no mutation); otherwise update
`lastCheckedAt`, search, and on a hit queue the first result and mark the
request fulfilled; any thrown error is caught and returned as
`{found: false, error}`. -/
def checkSingleRequest (env : CheckerEnv) (now : Nat)
    (st : List SavedRequest) (requestId : Nat) : SingleOutcome :=
  match DownloadRequestsService.getRequestById st requestId with
  | none =>
      { store := st, events := []
        result := { found := false, bookMd5 := none
                    error := some "Request not found" } }
  | some request =>
      if request.status ≠ ReqStatus.active then
        { store := st, events := []
          result := { found := false, bookMd5 := none
                      error := some "Request is not active" } }
      else
        let st1 := DownloadRequestsService.updateLastChecked st requestId now
        match env.search (convertToSearchQuery request.queryParams) with
        | SearchOutcome.err msg =>
            { store := st1
              events := [Event.updateLastChecked requestId,
                         Event.search requestId]
              result := { found := false, bookMd5 := none, error := some msg } }
        | SearchOutcome.ok [] =>
            { store := st1
              events := [Event.updateLastChecked requestId,
                         Event.search requestId]
              result := { found := false, bookMd5 := none, error := none } }
        | SearchOutcome.ok (firstBook :: _) =>
            match env.queue firstBook.md5 with
            | QueueOutcome.err msg =>
                { store := st1
                  events := [Event.updateLastChecked requestId,
                             Event.search requestId,
                             Event.addToQueue firstBook.md5]
                  result := { found := false, bookMd5 := none
                              error := some msg } }
            | QueueOutcome.ok _ =>
                { store := DownloadRequestsService.markFulfilled st1 requestId
                             firstBook.md5
                  events := [Event.updateLastChecked requestId,
                             Event.search requestId,
                             Event.addToQueue firstBook.md5,
                             Event.markFulfilled requestId firstBook.md5]
                  result := { found := true, bookMd5 := some firstBook.md5
                              error := none } }

/-- The trace of calls one loop iteration makes, as a function of the
environment and the request alone (the iteration's trace does not depend on
the threaded store). -/
def eventsFor (env : CheckerEnv) (r : SavedRequest) : List Event :=
  match env.search (convertToSearchQuery r.queryParams) with
  | SearchOutcome.err _ =>
      [Event.updateLastChecked r.id, Event.search r.id]
  | SearchOutcome.ok [] =>
      [Event.updateLastChecked r.id, Event.search r.id, Event.delay 2000]
  | SearchOutcome.ok (b :: _) =>
      match env.queue b.md5 with
      | QueueOutcome.err _ =>
          [Event.updateLastChecked r.id, Event.search r.id,
           Event.addToQueue b.md5, Event.delay 2000]
      | QueueOutcome.ok _ =>
          [Event.updateLastChecked r.id, Event.search r.id,
           Event.addToQueue b.md5, Event.markFulfilled r.id b.md5,
           Event.notify "request_fulfilled", Event.delay 2000]

/-- Whether the iteration for this request raises (and catches) an error:
either the search throws, or a result was found and queue admission threw. -/
def requestFails (env : CheckerEnv) (r : SavedRequest) : Bool :=
  match env.search (convertToSearchQuery r.queryParams) with
  | SearchOutcome.err _ => true
  | SearchOutcome.ok [] => false
  | SearchOutcome.ok (b :: _) =>
      match env.queue b.md5 with
      | QueueOutcome.err _ => true
      | QueueOutcome.ok _ => false

/-- Whether the iteration for this request reaches `markFulfilled`: the
search returned at least one result and queue admission succeeded. -/
def requestFulfills (env : CheckerEnv) (r : SavedRequest) : Bool :=
  match env.search (convertToSearchQuery r.queryParams) with
  | SearchOutcome.ok (b :: _) =>
      match env.queue b.md5 with
      | QueueOutcome.ok _ => true
      | QueueOutcome.err _ => false
  | _ => false

/-- Whether the search call for this request returned (did not throw). -/
def searchReturned (env : CheckerEnv) (r : SavedRequest) : Bool :=
  match env.search (convertToSearchQuery r.queryParams) with
  | SearchOutcome.ok _ => true
  | SearchOutcome.err _ => false

/-- Two logically overlapping invocations of `checkAllRequests`: the guard
check and the `isRunning = true` assignment run synchronously before the
first suspension point, so the second invocation necessarily observes the
flag already set.  The pair records what the second invocation returns at
that interleaving point, and how the first invocation's cycle then
completes. -/
def overlappedPair (env : CheckerEnv) (now : Nat) (st : List SavedRequest) :
    CheckOutcome × CheckOutcome :=
  let mid : CheckerState := { isRunning := true, store := st }
  (checkAllRequests env now mid, runCycle env now mid)

end RequestCheckerService

/-- The notification event kinds (`NotificationEvent`). -/
inductive NotificationEvent
  | new_request
  | download_error
  | available
  | delayed
  | update_available
  | request_fulfilled
  | book_queued
deriving DecidableEq

/-- Apprise settings row (`AppriseSettings`); `serverUrl` is nullable. -/
structure AppriseSettings where
  enabled : Bool
  serverUrl : Option String
  notifyOnNewRequest : Bool
  notifyOnDownloadError : Bool
  notifyOnAvailable : Bool
  notifyOnDelayed : Bool
  notifyOnUpdateAvailable : Bool
  notifyOnRequestFulfilled : Bool
  notifyOnBookQueued : Bool
deriving DecidableEq

/-- JS falsiness of a nullable string: `null`/`undefined` and `""` are
falsy. -/
def strFalsy : Option String → Bool
  | none => true
  | some s => s = ""

namespace AppriseService

/-- `shouldNotify`: false when notifications are disabled or no server URL is
configured, otherwise the per-event flag from the settings. -/
def shouldNotify (settings : AppriseSettings) : NotificationEvent → Bool :=
  fun event =>
    if !settings.enabled || strFalsy settings.serverUrl then
      false
    else
      match event with
      | NotificationEvent.new_request => settings.notifyOnNewRequest
      | NotificationEvent.download_error => settings.notifyOnDownloadError
      | NotificationEvent.available => settings.notifyOnAvailable
      | NotificationEvent.delayed => settings.notifyOnDelayed
      | NotificationEvent.update_available => settings.notifyOnUpdateAvailable
      | NotificationEvent.request_fulfilled => settings.notifyOnRequestFulfilled
      | NotificationEvent.book_queued => settings.notifyOnBookQueued

/-- Environment of one `send` call.  `getSettings` itself never throws (it
catches database errors and falls back to defaults), but `send` calls it
twice — once inside `shouldNotify` and once directly — and the one-minute
cache may expire in between, so the two observed settings are separate.
`httpOutcome` is the result of the `fetch` to the Apprise server inside
`sendToApprise` (an exception on network failure or a non-ok response). -/
structure SendEnv where
  settingsAtShouldNotify : AppriseSettings
  settingsAtSend : AppriseSettings
  httpOutcome : Except String Unit

/-- How one `send` call concluded. -/
inductive SendResult
  | skippedDisabled
  | skippedNoServerUrl
  | sent
  | errorLogged
deriving DecidableEq

/-- The body of `send` inside its `try`: return early when `shouldNotify` is
false or the server URL is missing, otherwise build the notification and
post it to the Apprise server — the one step that can throw. -/
def sendBody (env : SendEnv) (event : NotificationEvent) :
    Except String SendResult :=
  if shouldNotify env.settingsAtShouldNotify event = false then
    Except.ok SendResult.skippedDisabled
  else if strFalsy env.settingsAtSend.serverUrl then
    Except.ok SendResult.skippedNoServerUrl
  else
    match env.httpOutcome with
    | Except.error e => Except.error e
    | Except.ok _ => Except.ok SendResult.sent

/-- `send`: the whole body is wrapped in `try/catch`; a thrown error is
logged and swallowed, never rethrown to the caller. -/
def send (env : SendEnv) (event : NotificationEvent) :
    Except String SendResult :=
  match sendBody env event with
  | Except.ok r => Except.ok r
  | Except.error _ => Except.ok SendResult.errorLogged

end AppriseService

/-- One message written on the requests SSE stream: the event name, the
payload, and the incrementing event id. -/
structure SSEMessage where
  event : String
  data : RequestsUpdate
  id : Nat
deriving DecidableEq

namespace RequestsRoute

/-- A mutation performed through the `RequestsManager` while an SSE client is
connected. -/
inductive Mutation
  | create (params : RequestQueryParams) (newId : Nat)
  | delete (id : Nat)
  | cancel (id : Nat)
  | reactivate (id : Nat)
  | markFulfilled (id : Nat) (md5 : String)
  | updateLastChecked (id : Nat) (now : Nat)

/-- Dispatch a mutation to the corresponding `RequestsManager` operation,
returning the new store and the broadcasts it emitted. -/
def applyMutation (st : List SavedRequest) :
    Mutation → List SavedRequest × List RequestsUpdate
  | Mutation.create params newId => RequestsManager.createRequest st params newId
  | Mutation.delete id => RequestsManager.deleteRequest st id
  | Mutation.cancel id => RequestsManager.cancelRequest st id
  | Mutation.reactivate id => RequestsManager.reactivateRequest st id
  | Mutation.markFulfilled id md5 => RequestsManager.markFulfilled st id md5
  | Mutation.updateLastChecked id now =>
      RequestsManager.updateLastChecked st id now

/-- Run a sequence of mutations, concatenating the emitted broadcasts. -/
def applyMutations (st : List SavedRequest) :
    List Mutation → List SavedRequest × List RequestsUpdate
  | [] => (st, [])
  | m :: ms =>
      let p := applyMutation st m
      let q := applyMutations p.1 ms
      (q.1, p.2 ++ q.2)

/-- The requests SSE handler as one session: on connection it first writes
the full current snapshot (`getFullUpdate`) with event id 0, and only then
registers the `requests-updated` listener, so the mutation-triggered
broadcasts follow with increasing ids. -/
def sessionMessages (st : List SavedRequest) (muts : List Mutation) :
    List SSEMessage :=
  { event := "requests-updated", data := RequestsManager.getFullUpdate st
    id := 0 } ::
  ((applyMutations st muts).2.enum.map (fun p =>
    { event := "requests-updated", data := p.2, id := p.1 + 1 }))

end RequestsRoute

/-! ### Concrete sample data -/

/-- A sample saved query. -/
def qpSample : RequestQueryParams :=
  { q := some "dune", sort := none, content := none, ext := none
    lang := none, desc := none }

/-- A saved query whose search the sample environment makes throw. -/
def qpBoom : RequestQueryParams :=
  { q := some "boom", sort := none, content := none, ext := none
    lang := none, desc := none }

/-- A sample search result. -/
def bookSample : Book :=
  { md5 := "5d41402abc4b2a76b9719d911017c592", title := "Dune"
    authors := "Frank Herbert" }

/-- An active request for the sample query. -/
def reqActive : SavedRequest :=
  { id := 1, queryParams := qpSample, status := ReqStatus.active
    lastCheckedAt := none, fulfilledBookMd5 := none }

/-- An active request whose search will throw in the sample environment. -/
def reqBoom : SavedRequest :=
  { id := 2, queryParams := qpBoom, status := ReqStatus.active
    lastCheckedAt := none, fulfilledBookMd5 := none }

/-- A cancelled request. -/
def reqCancelled : SavedRequest :=
  { id := 3, queryParams := qpSample, status := ReqStatus.cancelled
    lastCheckedAt := none, fulfilledBookMd5 := none }

/-- Environment in which every search finds the sample book and queue
admission succeeds. -/
def envFound : CheckerEnv :=
  { listFails := false
    search := fun _ => SearchOutcome.ok [bookSample]
    queue := fun _ => QueueOutcome.ok "queued" }

/-- Environment in which searching for "boom" throws and every other search
returns no results. -/
def envSearchBoom : CheckerEnv :=
  { listFails := false
    search := fun q =>
      if q.q = "boom" then SearchOutcome.err "connection reset"
      else SearchOutcome.ok []
    queue := fun _ => QueueOutcome.ok "queued" }

/-! ### Helper predicates and lemmas about the checker -/

namespace DownloadRequestsService

theorem statusOf_map_cond (f : SavedRequest → SavedRequest) (i : Nat)
    (hid : ∀ r, (f r).id = r.id)
    (hst : ∀ r, r.id = i → (f r).status = r.status) :
    ∀ st : List SavedRequest, statusOf (st.map f) i = statusOf st i := by
  intro st
  induction st with
  | nil => rfl
  | cons a l ih =>
    simp only [statusOf, getRequestById, List.map_cons] at *
    by_cases h : a.id = i
    · rw [List.find?_cons_of_pos, List.find?_cons_of_pos]
      · simp [hst a h]
      · simp [h]
      · simp [hid a, h]
    · rw [List.find?_cons_of_neg, List.find?_cons_of_neg]
      · exact ih
      · simp [h]
      · simp [hid a, h]

theorem statusOf_updateLastChecked (st : List SavedRequest)
    (j now i : Nat) :
    statusOf (updateLastChecked st j now) i = statusOf st i := by
  refine statusOf_map_cond _ i (fun r => ?_) (fun r _ => ?_) st <;>
    by_cases h : r.id = j <;> simp [h]

theorem statusOf_markFulfilled_ne (st : List SavedRequest) (j : Nat)
    (md5 : String) (i : Nat) (hji : j ≠ i) :
    statusOf (markFulfilled st j md5) i = statusOf st i := by
  refine statusOf_map_cond _ i (fun r => ?_) (fun r hr => ?_) st
  · by_cases h : r.id = j <;> simp [h]
  · have h : r.id ≠ j := by simp [hr]; exact fun he => hji he.symm
    simp [h]

theorem getRequestById_of_nodup (st : List SavedRequest)
    (hn : (st.map SavedRequest.id).Nodup) (r : SavedRequest) (hr : r ∈ st) :
    getRequestById st r.id = some r := by
  induction st with
  | nil => cases hr
  | cons a l ih =>
    simp only [List.map_cons, List.nodup_cons] at hn
    rcases List.mem_cons.mp hr with h | h
    · subst h
      simp only [getRequestById]
      rw [List.find?_cons_of_pos]
      simp
    · have ha : a.id ≠ r.id := by
        intro he
        exact hn.1 (he ▸ List.mem_map_of_mem SavedRequest.id h)
      simp only [getRequestById] at ih ⊢
      rw [List.find?_cons_of_neg]
      · exact ih hn.2 h
      · simp [ha]

end DownloadRequestsService

namespace RequestCheckerService

theorem processOne_events (env : CheckerEnv) (now : Nat)
    (st : List SavedRequest) (r : SavedRequest) :
    (processOne env now st r).events = eventsFor env r := by
  cases hs : env.search (convertToSearchQuery r.queryParams) with
  | err m => simp [processOne, eventsFor, hs]
  | ok results =>
    cases results with
    | nil => simp [processOne, eventsFor, hs]
    | cons b rest =>
      cases hq : env.queue b.md5 <;> simp [processOne, eventsFor, hs, hq]

theorem processOne_errorInc (env : CheckerEnv) (now : Nat)
    (st : List SavedRequest) (r : SavedRequest) :
    (processOne env now st r).errorInc = if requestFails env r then 1 else 0 := by
  cases hs : env.search (convertToSearchQuery r.queryParams) with
  | err m => simp [processOne, requestFails, hs]
  | ok results =>
    cases results with
    | nil => simp [processOne, requestFails, hs]
    | cons b rest =>
      cases hq : env.queue b.md5 <;> simp [processOne, requestFails, hs, hq]

theorem processOne_statusOf (env : CheckerEnv) (now : Nat)
    (st : List SavedRequest) (r : SavedRequest) (i : Nat)
    (h : r.id = i → requestFulfills env r = false) :
    DownloadRequestsService.statusOf (processOne env now st r).store i =
      DownloadRequestsService.statusOf st i := by
  cases hs : env.search (convertToSearchQuery r.queryParams) with
  | err m =>
    simp only [processOne, hs]
    exact DownloadRequestsService.statusOf_updateLastChecked st r.id now i
  | ok results =>
    cases results with
    | nil =>
      simp only [processOne, hs]
      exact DownloadRequestsService.statusOf_updateLastChecked st r.id now i
    | cons b rest =>
      cases hq : env.queue b.md5 with
      | err m =>
        simp only [processOne, hs, hq]
        exact DownloadRequestsService.statusOf_updateLastChecked st r.id now i
      | ok qs =>
        have hne : r.id ≠ i := by
          intro he
          have hcon := h he
          simp [requestFulfills, hs, hq] at hcon
        simp only [processOne, hs, hq]
        rw [DownloadRequestsService.statusOf_markFulfilled_ne _ _ _ _ hne]
        exact DownloadRequestsService.statusOf_updateLastChecked st r.id now i

theorem runLoop_mem_events_iff (env : CheckerEnv) (now : Nat) (e : Event) :
    ∀ (reqs : List SavedRequest) (st : List SavedRequest),
      e ∈ (runLoop env now st reqs).events ↔ ∃ r ∈ reqs, e ∈ eventsFor env r := by
  intro reqs
  induction reqs with
  | nil => intro st; simp [runLoop]
  | cons r rest ih =>
    intro st
    simp only [runLoop, List.mem_append, processOne_events, ih,
      List.mem_cons]
    constructor
    · rintro (h | ⟨x, hx, he⟩)
      · exact ⟨r, Or.inl rfl, h⟩
      · exact ⟨x, Or.inr hx, he⟩
    · rintro ⟨x, hx | hx, he⟩
      · exact Or.inl (hx ▸ he)
      · exact Or.inr ⟨x, hx, he⟩

theorem runLoop_errors (env : CheckerEnv) (now : Nat) :
    ∀ (reqs : List SavedRequest) (st : List SavedRequest),
      (runLoop env now st reqs).errors = reqs.countP (requestFails env) := by
  intro reqs
  induction reqs with
  | nil => intro st; simp [runLoop]
  | cons r rest ih =>
    intro st
    simp only [runLoop, processOne_errorInc, ih, List.countP_cons]
    by_cases h : requestFails env r = true <;> simp [h] <;> omega

theorem eventsFor_mem_delay (env : CheckerEnv) (r : SavedRequest) :
    Event.delay 2000 ∈ eventsFor env r ↔ searchReturned env r = true := by
  cases hs : env.search (convertToSearchQuery r.queryParams) with
  | err m => simp [eventsFor, searchReturned, hs]
  | ok results =>
    cases results with
    | nil => simp [eventsFor, searchReturned, hs]
    | cons b rest =>
      cases hq : env.queue b.md5 <;> simp [eventsFor, searchReturned, hs, hq]

theorem eventsFor_count_delay (env : CheckerEnv) (r : SavedRequest) :
    (eventsFor env r).count (Event.delay 2000) =
      if searchReturned env r then 1 else 0 := by
  cases hs : env.search (convertToSearchQuery r.queryParams) with
  | err m => simp [eventsFor, searchReturned, hs]
  | ok results =>
    cases results with
    | nil => simp [eventsFor, searchReturned, hs]
    | cons b rest =>
      cases hq : env.queue b.md5 <;> simp [eventsFor, searchReturned, hs, hq]

theorem eventsFor_mem_updateLastChecked (env : CheckerEnv) (r : SavedRequest) :
    Event.updateLastChecked r.id ∈ eventsFor env r := by
  cases hs : env.search (convertToSearchQuery r.queryParams) with
  | err m => simp [eventsFor, hs]
  | ok results =>
    cases results with
    | nil => simp [eventsFor, hs]
    | cons b rest => cases hq : env.queue b.md5 <;> simp [eventsFor, hs, hq]

theorem eventsFor_mem_search (env : CheckerEnv) (r : SavedRequest) :
    Event.search r.id ∈ eventsFor env r := by
  cases hs : env.search (convertToSearchQuery r.queryParams) with
  | err m => simp [eventsFor, hs]
  | ok results =>
    cases results with
    | nil => simp [eventsFor, hs]
    | cons b rest => cases hq : env.queue b.md5 <;> simp [eventsFor, hs, hq]

theorem markFulfilled_mem_eventsFor (env : CheckerEnv) (r : SavedRequest)
    (i : Nat) (m : String) :
    Event.markFulfilled i m ∈ eventsFor env r ↔
      r.id = i ∧
        ∃ b rest qs,
          env.search (convertToSearchQuery r.queryParams) =
              SearchOutcome.ok (b :: rest) ∧
            b.md5 = m ∧ env.queue b.md5 = QueueOutcome.ok qs := by
  cases hs : env.search (convertToSearchQuery r.queryParams) with
  | err msg => simp [eventsFor, hs]
  | ok results =>
    cases results with
    | nil => simp [eventsFor, hs]
    | cons b rest =>
      cases hq : env.queue b.md5 with
      | err msg => simp [eventsFor, hs, hq]
      | ok qs =>
        simp only [eventsFor, hs, hq]
        constructor
        · intro hmem
          simp only [List.mem_cons, List.not_mem_nil, or_false] at hmem
          rcases hmem with h | h | h | h | h
          · simp at h
          · simp at h
          · simp at h
          · rw [Event.markFulfilled.injEq] at h
            exact ⟨h.1.symm, b, rest, qs, rfl, h.2.symm, hq⟩
          · simp at h
        · rintro ⟨hi, b2, rest2, qs2, hsearch2, hmd5, hq2⟩
          rw [SearchOutcome.ok.injEq, List.cons.injEq] at hsearch2
          subst hi
          rw [← hsearch2.1] at hmd5
          rw [← hmd5]
          simp

theorem runLoop_count_delay (env : CheckerEnv) (now : Nat) :
    ∀ (reqs : List SavedRequest) (st : List SavedRequest),
      ((runLoop env now st reqs).events).count (Event.delay 2000) =
        reqs.countP (searchReturned env) := by
  intro reqs
  induction reqs with
  | nil => intro st; simp [runLoop]
  | cons r rest ih =>
    intro st
    simp only [runLoop, List.count_append, processOne_events,
      eventsFor_count_delay, ih, List.countP_cons]
    by_cases h : searchReturned env r = true <;> simp [h] <;> omega

theorem runLoop_statusOf (env : CheckerEnv) (now : Nat) (i : Nat) :
    ∀ (reqs : List SavedRequest) (st : List SavedRequest),
      (∀ r ∈ reqs, r.id = i → requestFulfills env r = false) →
      DownloadRequestsService.statusOf (runLoop env now st reqs).store i =
        DownloadRequestsService.statusOf st i := by
  intro reqs
  induction reqs with
  | nil => intro st _; rfl
  | cons r rest ih =>
    intro st h
    simp only [runLoop]
    rw [ih _ (fun x hx => h x (List.mem_cons_of_mem r hx))]
    exact processOne_statusOf env now st r i (h r (List.mem_cons_self r rest))

theorem mem_getActiveRequests (st : List SavedRequest) (r : SavedRequest) :
    r ∈ DownloadRequestsService.getActiveRequests st ↔
      r ∈ st ∧ r.status = ReqStatus.active := by
  simp [DownloadRequestsService.getActiveRequests, List.mem_filter]

theorem nodup_active_ids (st : List SavedRequest)
    (hn : (st.map SavedRequest.id).Nodup) :
    ((DownloadRequestsService.getActiveRequests st).map SavedRequest.id).Nodup :=
  hn.sublist ((List.filter_sublist st).map SavedRequest.id)

theorem checkAllRequests_not_running (env : CheckerEnv) (now : Nat)
    (st : List SavedRequest) :
    checkAllRequests env now { isRunning := false, store := st } =
      runCycle env now { isRunning := true, store := st } := by
  simp [checkAllRequests]

theorem runCycle_no_listFail (env : CheckerEnv) (now : Nat)
    (st : List SavedRequest) (hl : env.listFails = false) :
    runCycle env now { isRunning := true, store := st } =
      { state :=
          { isRunning := false
            store :=
              (runLoop env now st
                (DownloadRequestsService.getActiveRequests st)).store }
        events :=
          (runLoop env now st
            (DownloadRequestsService.getActiveRequests st)).events
        ran := true
        found :=
          (runLoop env now st
            (DownloadRequestsService.getActiveRequests st)).found
        errors :=
          (runLoop env now st
            (DownloadRequestsService.getActiveRequests st)).errors } := by
  cases hAct : DownloadRequestsService.getActiveRequests st with
  | nil => simp [runCycle, hl, hAct, runLoop]
  | cons a l => simp [runCycle, hl, hAct]

theorem checkAllRequests_unfold (env : CheckerEnv) (now : Nat)
    (st : List SavedRequest) (hl : env.listFails = false) :
    checkAllRequests env now { isRunning := false, store := st } =
      { state :=
          { isRunning := false
            store :=
              (runLoop env now st
                (DownloadRequestsService.getActiveRequests st)).store }
        events :=
          (runLoop env now st
            (DownloadRequestsService.getActiveRequests st)).events
        ran := true
        found :=
          (runLoop env now st
            (DownloadRequestsService.getActiveRequests st)).found
        errors :=
          (runLoop env now st
            (DownloadRequestsService.getActiveRequests st)).errors } := by
  rw [checkAllRequests_not_running, runCycle_no_listFail env now st hl]

theorem runCycle_ran (env : CheckerEnv) (now : Nat) (st : List SavedRequest) :
    (runCycle env now { isRunning := true, store := st }).ran = true := by
  by_cases hl : env.listFails = true
  · simp [runCycle, hl]
  · rw [runCycle_no_listFail env now st (by simpa using hl)]

theorem runCycle_resets (env : CheckerEnv) (now : Nat)
    (st : List SavedRequest) :
    (runCycle env now { isRunning := true, store := st }).state.isRunning =
      false := by
  by_cases hl : env.listFails = true
  · simp [runCycle, hl]
  · rw [runCycle_no_listFail env now st (by simpa using hl)]

end RequestCheckerService

open RequestCheckerService in
/-- C2: of two logically overlapping `checkAllRequests` invocations exactly
one executes the check cycle; the second observes the `isRunning` guard and
returns immediately — it makes no external call, reads and mutates no
request (its trace is empty and the state it returns is exactly the state it
observed) — and nothing is queued to run later (its outcome is final).  The
first invocation's cycle runs and its `finally` clears the flag. -/
theorem overlapping_invocations_single_flight (env : CheckerEnv) (now : Nat)
    (st : List SavedRequest) :
    (overlappedPair env now st).1.ran = false ∧
    (overlappedPair env now st).1.events = [] ∧
    (overlappedPair env now st).1.state =
      { isRunning := true, store := st } ∧
    (overlappedPair env now st).2.ran = true ∧
    (overlappedPair env now st).2.state.isRunning = false :=
  ⟨rfl, rfl, rfl, runCycle_ran env now st, runCycle_resets env now st⟩

open RequestCheckerService in
/-- C8: `checkAllRequests` is a total function of the environment (the
returned promise never rejects: every fatal error is caught), and every
invocation that enters the guarded cycle resets `isRunning` to `false` when
it settles — whether the cycle completed normally, found no active requests,
or the listing of active requests threw — so the single-flight guard can
never be left permanently set.  A skipped invocation never touched the flag
in the first place. -/
theorem checkAllRequests_resets_isRunning (env : CheckerEnv) (now : Nat)
    (st : List SavedRequest) :
    (checkAllRequests env now { isRunning := false, store := st
      }).state.isRunning = false ∧
    (runCycle env now { isRunning := true, store := st }).state.isRunning =
      false := by
  rw [checkAllRequests_not_running]
  exact ⟨runCycle_resets env now st, runCycle_resets env now st⟩

/-- C5: each of the five mutating `RequestsManager` operations emits exactly
one `requests-updated` broadcast, whose payload is the full post-mutation
snapshot (all requests plus aggregate stats, exactly what `getFullUpdate`
hands a new subscriber), while `updateLastChecked` emits none. -/
theorem requestsManager_broadcast_discipline (st : List SavedRequest)
    (params : RequestQueryParams) (newId id now : Nat) (md5 : String) :
    (RequestsManager.createRequest st params newId).2 =
      [RequestsManager.getFullUpdate
        (RequestsManager.createRequest st params newId).1] ∧
    (RequestsManager.deleteRequest st id).2 =
      [RequestsManager.getFullUpdate (RequestsManager.deleteRequest st id).1] ∧
    (RequestsManager.cancelRequest st id).2 =
      [RequestsManager.getFullUpdate (RequestsManager.cancelRequest st id).1] ∧
    (RequestsManager.reactivateRequest st id).2 =
      [RequestsManager.getFullUpdate
        (RequestsManager.reactivateRequest st id).1] ∧
    (RequestsManager.markFulfilled st id md5).2 =
      [RequestsManager.getFullUpdate
        (RequestsManager.markFulfilled st id md5).1] ∧
    (RequestsManager.updateLastChecked st id now).2 = [] :=
  ⟨rfl, rfl, rfl, rfl, rfl, rfl⟩

/-- C6: `AppriseService.send` never raises to its caller: whatever the
settings observed at each of its two `getSettings` reads (notifications
disabled, server URL missing) and whatever the HTTP call to the Apprise
server does (including throwing), the result is always a normal (`ok`)
return — the `catch` swallows every error.  `send` reads only notification
settings, so queue and request state are untouched by construction. -/
theorem apprise_send_never_raises (env : AppriseService.SendEnv)
    (event : NotificationEvent) :
    ∃ r, AppriseService.send env event = Except.ok r := by
  cases h : AppriseService.sendBody env event with
  | ok r => exact ⟨r, by simp [AppriseService.send, h]⟩
  | error e =>
      exact ⟨AppriseService.SendResult.errorLogged,
        by simp [AppriseService.send, h]⟩

/-- C7: a subscriber to the requests SSE stream receives, as its very first
message, one full snapshot of the current state (event id 0), and every
mutation-triggered update it receives comes strictly after it (all carry
event ids of at least 1). -/
theorem subscriber_first_message_is_snapshot (st : List SavedRequest)
    (muts : List RequestsRoute.Mutation) :
    (RequestsRoute.sessionMessages st muts).head? =
      some { event := "requests-updated"
             data := RequestsManager.getFullUpdate st, id := 0 } ∧
    ∀ msg ∈ (RequestsRoute.sessionMessages st muts).tail, 1 ≤ msg.id := by
  constructor
  · rfl
  · intro msg hm
    simp only [RequestsRoute.sessionMessages, List.tail_cons, List.mem_map]
      at hm
    obtain ⟨p, _, hmsg⟩ := hm
    rw [← hmsg]
    exact Nat.succ_le_succ (Nat.zero_le p.1)

namespace DownloadRequestsService

theorem lastCheckedAt_updateLastChecked (st : List SavedRequest)
    (i now : Nat) :
    ∀ x ∈ updateLastChecked st i now, x.id = i →
      x.lastCheckedAt = some now := by
  intro x hx hid
  simp only [updateLastChecked, List.mem_map] at hx
  obtain ⟨y, _, rfl⟩ := hx
  by_cases h : y.id = i
  · rw [if_pos h]
  · rw [if_neg h] at hid ⊢
    exact absurd hid h

theorem lastCheckedAt_markFulfilled (st : List SavedRequest) (j : Nat)
    (md5 : String) :
    ∀ x ∈ markFulfilled st j md5,
      ∃ y ∈ st, y.id = x.id ∧ y.lastCheckedAt = x.lastCheckedAt := by
  intro x hx
  simp only [markFulfilled, List.mem_map] at hx
  obtain ⟨y, hy, rfl⟩ := hx
  by_cases h : y.id = j
  · rw [if_pos h]
    exact ⟨y, hy, rfl, rfl⟩
  · rw [if_neg h]
    exact ⟨y, hy, rfl, rfl⟩

end DownloadRequestsService

namespace RequestCheckerService

theorem processOne_lastChecked (env : CheckerEnv) (now : Nat)
    (st : List SavedRequest) (r : SavedRequest) :
    ∀ x ∈ (processOne env now st r).store, x.id = r.id →
      x.lastCheckedAt = some now := by
  cases hs : env.search (convertToSearchQuery r.queryParams) with
  | err m =>
    simp only [processOne, hs]
    exact DownloadRequestsService.lastCheckedAt_updateLastChecked st r.id now
  | ok results =>
    cases results with
    | nil =>
      simp only [processOne, hs]
      exact DownloadRequestsService.lastCheckedAt_updateLastChecked st r.id now
    | cons b rest =>
      cases hq : env.queue b.md5 with
      | err m =>
        simp only [processOne, hs, hq]
        exact DownloadRequestsService.lastCheckedAt_updateLastChecked st r.id
          now
      | ok qs =>
        simp only [processOne, hs, hq]
        intro x hx hid
        obtain ⟨y, hy, hyid, hylc⟩ :=
          DownloadRequestsService.lastCheckedAt_markFulfilled _ r.id b.md5 x hx
        rw [← hylc]
        exact DownloadRequestsService.lastCheckedAt_updateLastChecked st r.id
          now y hy (hyid.trans hid)

theorem processOne_events_shape (env : CheckerEnv) (now : Nat)
    (st : List SavedRequest) (r : SavedRequest) :
    ∃ tail, (processOne env now st r).events =
      Event.updateLastChecked r.id :: Event.search r.id :: tail := by
  rw [processOne_events]
  cases hs : env.search (convertToSearchQuery r.queryParams) with
  | err m => exact ⟨[], by simp [eventsFor, hs]⟩
  | ok results =>
    cases results with
    | nil => exact ⟨[Event.delay 2000], by simp [eventsFor, hs]⟩
    | cons b rest =>
      cases hq : env.queue b.md5 with
      | err m =>
        exact ⟨[Event.addToQueue b.md5, Event.delay 2000],
          by simp [eventsFor, hs, hq]⟩
      | ok qs =>
        exact ⟨[Event.addToQueue b.md5, Event.markFulfilled r.id b.md5,
          Event.notify "request_fulfilled", Event.delay 2000],
          by simp [eventsFor, hs, hq]⟩

theorem checkSingleRequest_active (env : CheckerEnv) (now : Nat)
    (st : List SavedRequest) (r : SavedRequest)
    (hfind : DownloadRequestsService.getRequestById st r.id = some r)
    (hact : r.status = ReqStatus.active) :
    (∃ tail, (checkSingleRequest env now st r.id).events =
      Event.updateLastChecked r.id :: Event.search r.id :: tail) ∧
    ∀ x ∈ (checkSingleRequest env now st r.id).store, x.id = r.id →
      x.lastCheckedAt = some now := by
  have hcond : ¬ r.status ≠ ReqStatus.active := fun h => h hact
  cases hs : env.search (convertToSearchQuery r.queryParams) with
  | err m =>
    simp only [checkSingleRequest, hfind, if_neg hcond, hs]
    exact ⟨⟨_, rfl⟩,
      DownloadRequestsService.lastCheckedAt_updateLastChecked st r.id now⟩
  | ok results =>
    cases results with
    | nil =>
      simp only [checkSingleRequest, hfind, if_neg hcond, hs]
      exact ⟨⟨_, rfl⟩,
        DownloadRequestsService.lastCheckedAt_updateLastChecked st r.id now⟩
    | cons b rest =>
      cases hq : env.queue b.md5 with
      | err m =>
        simp only [checkSingleRequest, hfind, if_neg hcond, hs, hq]
        exact ⟨⟨_, rfl⟩,
          DownloadRequestsService.lastCheckedAt_updateLastChecked st r.id now⟩
      | ok qs =>
        simp only [checkSingleRequest, hfind, if_neg hcond, hs, hq]
        refine ⟨⟨_, rfl⟩, ?_⟩
        intro x hx hid
        obtain ⟨y, hy, hyid, hylc⟩ :=
          DownloadRequestsService.lastCheckedAt_markFulfilled _ r.id b.md5 x hx
        rw [← hylc]
        exact DownloadRequestsService.lastCheckedAt_updateLastChecked st r.id
          now y hy (hyid.trans hid)

end RequestCheckerService

/-- C7 witness: a client connecting while one request is stored, followed by
one cancellation, receives the full snapshot of the connect-time store as
its first message. -/
theorem subscriber_first_message_is_snapshot_witness :
    (RequestsRoute.sessionMessages [reqActive]
      [RequestsRoute.Mutation.cancel 1]).head? =
      some { event := "requests-updated"
             data := RequestsManager.getFullUpdate [reqActive], id := 0 } :=
  (subscriber_first_message_is_snapshot [reqActive]
    [RequestsRoute.Mutation.cancel 1]).1

open RequestCheckerService in
/-- C9: in both `checkAllRequests` (whose loop body is `processOne`) and
`checkSingleRequest`, the `lastCheckedAt` update is the first call of the
iteration and the search is invoked only after it, so `lastCheckedAt` is set
to the current time on every iteration — also when the search throws or
returns zero results. -/
theorem lastChecked_updated_before_search (env : CheckerEnv) (now : Nat)
    (st : List SavedRequest) (r : SavedRequest)
    (hfind : DownloadRequestsService.getRequestById st r.id = some r)
    (hact : r.status = ReqStatus.active) :
    ((∃ tail, (processOne env now st r).events =
        Event.updateLastChecked r.id :: Event.search r.id :: tail) ∧
      ∀ x ∈ (processOne env now st r).store, x.id = r.id →
        x.lastCheckedAt = some now) ∧
    ((∃ tail, (checkSingleRequest env now st r.id).events =
        Event.updateLastChecked r.id :: Event.search r.id :: tail) ∧
      ∀ x ∈ (checkSingleRequest env now st r.id).store, x.id = r.id →
        x.lastCheckedAt = some now) :=
  ⟨⟨processOne_events_shape env now st r, processOne_lastChecked env now st r⟩,
    checkSingleRequest_active env now st r hfind hact⟩

open RequestCheckerService in
/-- C9 witness: for the sample environment in which the search for request 2
throws, a single check of that request still records the new
`lastCheckedAt` value and the update precedes the search in the trace. -/
theorem lastChecked_updated_before_search_witness :
    (checkSingleRequest envSearchBoom 5 [reqBoom] reqBoom.id).events.head? =
      some (Event.updateLastChecked reqBoom.id) := by
  obtain ⟨tail, htail⟩ :=
    (lastChecked_updated_before_search envSearchBoom 5 [reqBoom] reqBoom rfl
      rfl).2.1
  rw [htail]
  rfl

open RequestCheckerService in
/-- C10: `checkSingleRequest` on an unknown id returns
`{found: false, error: "Request not found"}`, and on a request that is not
`active` returns `{found: false, error: "Request is not active"}`; in both
cases the store is untouched and no call (no `lastCheckedAt` update, no
search, no queue admission, no `markFulfilled`) is made. -/
theorem checkSingleRequest_guard_behavior (env : CheckerEnv) (now : Nat)
    (st : List SavedRequest) (requestId : Nat) :
    (DownloadRequestsService.getRequestById st requestId = none →
      checkSingleRequest env now st requestId =
        { store := st, events := []
          result := { found := false, bookMd5 := none
                      error := some "Request not found" } }) ∧
    (∀ r, DownloadRequestsService.getRequestById st requestId = some r →
      r.status ≠ ReqStatus.active →
      checkSingleRequest env now st requestId =
        { store := st, events := []
          result := { found := false, bookMd5 := none
                      error := some "Request is not active" } }) := by
  constructor
  · intro h
    simp [checkSingleRequest, h]
  · intro r h hst
    simp [checkSingleRequest, h, hst]

open RequestCheckerService in
/-- C10 witness: a single check of an id absent from the store, and of a
cancelled request, return the two error results respectively. -/
theorem checkSingleRequest_guard_behavior_witness :
    checkSingleRequest envFound 0 [] 7 =
      { store := [], events := []
        result := { found := false, bookMd5 := none
                    error := some "Request not found" } } ∧
    checkSingleRequest envFound 0 [reqCancelled] 3 =
      { store := [reqCancelled], events := []
        result := { found := false, bookMd5 := none
                    error := some "Request is not active" } } :=
  ⟨(checkSingleRequest_guard_behavior envFound 0 [] 7).1 rfl,
    (checkSingleRequest_guard_behavior envFound 0 [reqCancelled] 3).2
      reqCancelled rfl (by decide)⟩

open RequestCheckerService in
/-- C4: in a cycle whose listing of active requests succeeded, every active
request is processed — its `lastCheckedAt` update and its search both appear
in the cycle's trace — no matter which other requests failed, and the
cycle's error count equals the number of active requests whose processing
failed (search threw, or a result was found and queue admission threw): a
single request's failure is caught, counted, and never aborts the cycle. -/
theorem per_request_failures_isolated (env : CheckerEnv) (now : Nat)
    (st : List SavedRequest) (hl : env.listFails = false) :
    (∀ r ∈ DownloadRequestsService.getActiveRequests st,
      Event.updateLastChecked r.id ∈
          (checkAllRequests env now { isRunning := false, store := st
            }).events ∧
        Event.search r.id ∈
          (checkAllRequests env now { isRunning := false, store := st
            }).events) ∧
    (checkAllRequests env now { isRunning := false, store := st }).errors =
      (DownloadRequestsService.getActiveRequests st).countP
        (requestFails env) := by
  have hev : (checkAllRequests env now { isRunning := false, store := st
      }).events =
      (runLoop env now st (DownloadRequestsService.getActiveRequests
        st)).events := by
    rw [checkAllRequests_unfold env now st hl]
  have herr : (checkAllRequests env now { isRunning := false, store := st
      }).errors =
      (runLoop env now st (DownloadRequestsService.getActiveRequests
        st)).errors := by
    rw [checkAllRequests_unfold env now st hl]
  rw [hev, herr]
  refine ⟨fun r hr => ⟨?_, ?_⟩, runLoop_errors env now _ st⟩
  · exact (runLoop_mem_events_iff env now _ _ st).mpr
      ⟨r, hr, eventsFor_mem_updateLastChecked env r⟩
  · exact (runLoop_mem_events_iff env now _ _ st).mpr
      ⟨r, hr, eventsFor_mem_search env r⟩

open RequestCheckerService in
/-- C4 witness: with two active requests of which the first one's search
throws, the second is still searched and exactly one error is counted. -/
theorem per_request_failures_isolated_witness :
    Event.search reqActive.id ∈
      (checkAllRequests envSearchBoom 0
        { isRunning := false, store := [reqBoom, reqActive] }).events ∧
    (checkAllRequests envSearchBoom 0
      { isRunning := false, store := [reqBoom, reqActive] }).errors = 1 := by
  have h :=
    per_request_failures_isolated envSearchBoom 0 [reqBoom, reqActive] rfl
  refine ⟨(h.1 reqActive (by decide)).2, ?_⟩
  rw [h.2]
  decide

open RequestCheckerService in
/-- C3 counterexample: one active request whose search throws; contrary to
the claim that the 2000 ms delay runs after each request regardless of
failure, the cycle's trace contains no delay at all — the thrown search
error jumps to the per-request catch, past the delay. -/
theorem delay_skipped_on_search_error :
    Event.delay 2000 ∉
      (checkAllRequests envSearchBoom 0
        { isRunning := false, store := [reqBoom] }).events := by
  decide

open RequestCheckerService in
/-- C3 amended: the checker waits the fixed 2000 ms delay after each request
whose search call returned — whether it found zero results, queued
successfully, or failed queue admission — but when the search itself (or the
`lastCheckedAt` update) throws, the per-request catch skips the delay and
the loop proceeds directly to the next request.  Per cycle, the number of
delays equals the number of active requests whose search returned. -/
theorem delay_runs_iff_search_returned (env : CheckerEnv) (now : Nat)
    (st : List SavedRequest) (r : SavedRequest) (hl : env.listFails = false) :
    (Event.delay 2000 ∈ (processOne env now st r).events ↔
      searchReturned env r = true) ∧
    (checkAllRequests env now { isRunning := false, store := st
      }).events.count (Event.delay 2000) =
      (DownloadRequestsService.getActiveRequests st).countP
        (searchReturned env) := by
  have hev : (checkAllRequests env now { isRunning := false, store := st
      }).events =
      (runLoop env now st (DownloadRequestsService.getActiveRequests
        st)).events := by
    rw [checkAllRequests_unfold env now st hl]
  rw [hev]
  constructor
  · rw [processOne_events]
    exact eventsFor_mem_delay env r
  · exact runLoop_count_delay env now _ st

open RequestCheckerService in
/-- C3 amended witness: in the sample store with one request whose search
throws and one whose search returns empty, exactly one delay runs. -/
theorem delay_runs_iff_search_returned_witness :
    (checkAllRequests envSearchBoom 0
      { isRunning := false, store := [reqBoom, reqActive] }).events.count
        (Event.delay 2000) =
      (DownloadRequestsService.getActiveRequests
        [reqBoom, reqActive]).countP (searchReturned envSearchBoom) :=
  (delay_runs_iff_search_returned envSearchBoom 0 [reqBoom, reqActive]
    reqActive rfl).2

open RequestCheckerService in
/-- C1: in a cycle over a store with distinct request ids, an active request
whose search returned at least one result is marked fulfilled with the first
result's fingerprint exactly when the `addToQueue` call for that fingerprint
completed without error; when `addToQueue` throws, `markFulfilled` is never
called for that request, the error is counted in the cycle's error count,
and the request's stored status remains `active`, to be retried on the next
cycle. -/
theorem markFulfilled_iff_addToQueue_ok (env : CheckerEnv) (now : Nat)
    (st : List SavedRequest) (r : SavedRequest) (b : Book) (rest : List Book)
    (hl : env.listFails = false)
    (hn : (st.map SavedRequest.id).Nodup)
    (hr : r ∈ DownloadRequestsService.getActiveRequests st)
    (hs : env.search (convertToSearchQuery r.queryParams) =
      SearchOutcome.ok (b :: rest)) :
    ((Event.markFulfilled r.id b.md5 ∈
        (checkAllRequests env now { isRunning := false, store := st
          }).events) ↔
      ∃ qs, env.queue b.md5 = QueueOutcome.ok qs) ∧
    (∀ msg, env.queue b.md5 = QueueOutcome.err msg →
      1 ≤ (checkAllRequests env now { isRunning := false, store := st
        }).errors ∧
      DownloadRequestsService.statusOf
          (checkAllRequests env now { isRunning := false, store := st
            }).state.store r.id =
        some ReqStatus.active) := by
  have hnA := nodup_active_ids st hn
  have hev : (checkAllRequests env now { isRunning := false, store := st
      }).events =
      (runLoop env now st (DownloadRequestsService.getActiveRequests
        st)).events := by
    rw [checkAllRequests_unfold env now st hl]
  have herr : (checkAllRequests env now { isRunning := false, store := st
      }).errors =
      (runLoop env now st (DownloadRequestsService.getActiveRequests
        st)).errors := by
    rw [checkAllRequests_unfold env now st hl]
  have hstore : (checkAllRequests env now { isRunning := false, store := st
      }).state.store =
      (runLoop env now st (DownloadRequestsService.getActiveRequests
        st)).store := by
    rw [checkAllRequests_unfold env now st hl]
  rw [hev, herr, hstore]
  constructor
  · rw [runLoop_mem_events_iff]
    constructor
    · rintro ⟨r2, hr2, hmem⟩
      rw [markFulfilled_mem_eventsFor] at hmem
      obtain ⟨hid, b2, rest2, qs2, hs2, hmd5, hq2⟩ := hmem
      have heq : r2 = r := List.inj_on_of_nodup_map hnA hr2 hr hid
      subst heq
      rw [hs, SearchOutcome.ok.injEq, List.cons.injEq] at hs2
      rw [← hs2.1] at hq2
      exact ⟨qs2, hq2⟩
    · rintro ⟨qs, hq⟩
      refine ⟨r, hr, ?_⟩
      rw [markFulfilled_mem_eventsFor]
      exact ⟨rfl, b, rest, qs, hs, rfl, hq⟩
  · intro msg hq
    constructor
    · rw [runLoop_errors]
      have hf : requestFails env r = true := by
        simp [requestFails, hs, hq]
      have hpos :
          0 < (DownloadRequestsService.getActiveRequests st).countP
            (requestFails env) :=
        List.countP_pos_iff.mpr ⟨r, hr, hf⟩
      omega
    · rw [runLoop_statusOf]
      · have hmem := (mem_getActiveRequests st r).mp hr
        rw [DownloadRequestsService.statusOf,
          DownloadRequestsService.getRequestById_of_nodup st hn r hmem.1]
        simp [hmem.2]
      · intro r2 hr2 hid
        have heq : r2 = r := List.inj_on_of_nodup_map hnA hr2 hr hid
        subst heq
        simp [requestFulfills, hs, hq]

open RequestCheckerService in
/-- C1 witness: one active request in an environment where the search finds
the sample book and queue admission succeeds; the cycle's trace contains the
`markFulfilled` call for the request and the book's fingerprint. -/
theorem markFulfilled_iff_addToQueue_ok_witness :
    Event.markFulfilled reqActive.id bookSample.md5 ∈
      (checkAllRequests envFound 0
        { isRunning := false, store := [reqActive] }).events :=
  ((markFulfilled_iff_addToQueue_ok envFound 0 [reqActive] reqActive
      bookSample [] rfl (by decide) (by decide) rfl).1).mpr ⟨"queued", rfl⟩

end Ephemera
